import Mathlib

/-!
Verification of the risk-scoring core of the breast-cancer assessment app
(`src/app.py`).  Numeric values are modelled as rationals; the externally
trained scaler and classifier are external artifacts, modelled as functions
bundled in a structure, exactly as the code treats them (it only calls
`scaler.transform`, `model.predict` and `model.predict_proba`).
-/

namespace Cancer

/-- A record of the normal-range table: `normal_ranges[feature] = {q25, q75}`
(from `normal_ranges.pkl`). -/
structure NormalRange where
  q25 : ℚ
  q75 : ℚ
deriving DecidableEq, Repr

/-- Embedding of `check_normal_range` from `src/app.py` lines 140-146:
if the feature is a key of `normal_ranges`, return `q25 <= value <= q75`,
otherwise return `True`. -/
def check_normal_range (feature : String) (value : ℚ)
    (normal_ranges : List (String × NormalRange)) : Bool :=
  match normal_ranges.lookup feature with
  | some r => decide (r.q25 ≤ value ∧ value ≤ r.q75)
  | none => true

/-- Embedding of `get_risk_level` from `src/app.py` lines 148-155: bucket a probability
into a (label, icon) pair. -/
def get_risk_level (probability : ℚ) : String × String :=
  if probability < 3/10 then ("Low Risk", "🟢")
  else if probability < 7/10 then ("Moderate Risk", "🟡")
  else ("High Risk", "🔴")

/-- The external model artifact (`breast_cancer_model.pkl`): the code treats
the fitted scaler and classifier as black-box callables operating on a matrix
(a list of row vectors), which is how `scaler.transform([input_data])`,
`model.predict(...)` and `model.predict_proba(...)` are invoked. -/
structure Artifact where
  transform : List (List ℚ) → List (List ℚ)
  predict : List (List ℚ) → List ℕ
  predict_proba : List (List ℚ) → List (List ℚ)

/-- The per-request output of the pipeline (prediction, malignancy probability,
risk label and icon), as computed in `show_risk_assessment`. -/
structure ScoringResult where
  prediction : ℕ
  probability : ℚ
  risk_level : String
  risk_icon : String
deriving DecidableEq, Repr

/-- The scoring pipeline of `show_risk_assessment` (`src/app.py` lines
312-328): scale `[input_data]`, take `model.predict(input_scaled)[0]` and
`model.predict_proba(input_scaled)[0][1]`, then bucket the probability with
`get_risk_level`.  Python indexing raises on a missing index, modelled by
returning `none`. -/
def score (a : Artifact) (input_data : List ℚ) : Option ScoringResult :=
  let input_scaled := a.transform [input_data]
  match (a.predict input_scaled).get? 0,
        ((a.predict_proba input_scaled).get? 0).bind (fun row => row.get? 1) with
  | some prediction, some probability =>
      some { prediction := prediction
             probability := probability
             risk_level := (get_risk_level probability).1
             risk_icon := (get_risk_level probability).2 }
  | _, _ => none

/-- The feature vector assembled in `show_risk_assessment` (`src/app.py`
lines 304-309): the ten mean measurements followed by the ten worst
measurements, in the order written in the source. -/
def input_data (radius_mean texture_mean perimeter_mean area_mean
    smoothness_mean compactness_mean concavity_mean concave_points_mean
    symmetry_mean fractal_dimension_mean
    radius_worst texture_worst perimeter_worst area_worst
    smoothness_worst compactness_worst concavity_worst concave_points_worst
    symmetry_worst fractal_dimension_worst : ℚ) : List ℚ :=
  [radius_mean, texture_mean, perimeter_mean, area_mean, smoothness_mean,
   compactness_mean, concavity_mean, concave_points_mean, symmetry_mean,
   fractal_dimension_mean,
   radius_worst, texture_worst, perimeter_worst, area_worst,
   smoothness_worst, compactness_worst, concavity_worst,
   concave_points_worst, symmetry_worst, fractal_dimension_worst]

/-- Which styled panel the results block renders with. -/
inductive PanelStyle where
  | riskLow
  | riskHigh
deriving DecidableEq, Repr

/-- The rendered results panel: CSS class, icon, label and message. -/
structure ResultPanel where
  style : PanelStyle
  icon : String
  level : String
  message : String
deriving DecidableEq, Repr

/-- The results display of `show_risk_assessment` (`src/app.py` lines
326-345): compute `get_risk_level(probability)`, then branch only on
`probability < 0.3` — the low branch renders the `risk-low` div with the
low-probability message, everything else renders the `risk-high` div with
the elevated-risk message. -/
def result_panel (probability : ℚ) : ResultPanel :=
  let rl := get_risk_level probability
  if probability < 3/10 then
    { style := PanelStyle.riskLow
      icon := rl.2
      level := rl.1
      message := "The analysis suggests a low probability of malignancy." }
  else
    { style := PanelStyle.riskHigh
      icon := rl.2
      level := rl.1
      message := "The analysis suggests elevated risk. Please consult a healthcare professional." }

/-- An admissible artifact whose scaler is the identity and whose classifier
reports, as the class-1 probability slot, the length of the row it received:
used to observe that the pipeline hands the scaler/classifier the raw vector
unchanged, whatever its length. -/
def length_probe_artifact : Artifact where
  transform := fun rows => rows
  predict := fun rows => rows.map (fun _ => 0)
  predict_proba := fun rows => rows.map (fun row => [0, (row.length : ℚ)])

/-- An admissible artifact with an identity scaler and a constant classifier
that reports probability 1/2 for class 1. -/
def half_artifact : Artifact where
  transform := fun rows => rows
  predict := fun rows => rows.map (fun _ => 0)
  predict_proba := fun rows => rows.map (fun _ => [1/2, 1/2])

/-- A concrete admissible artifact used in witnesses: identity scaler,
constant prediction 1, class probabilities (0.3, 0.7). -/
def witness_artifact : Artifact where
  transform := fun rows => rows
  predict := fun rows => rows.map (fun _ => 1)
  predict_proba := fun rows => rows.map (fun _ => [3/10, 7/10])

/-- The normal-range table instance named in the behavioural spec:
`radius_mean` has reference interval q25 = 11.7, q75 = 15.78. -/
def spec_table : List (String × NormalRange) :=
  [("radius_mean", { q25 := 117/10, q75 := 1578/100 })]

/-- C1: `get_risk_level` returns Low Risk exactly on `p < 0.30`, Moderate
Risk exactly on `0.30 ≤ p < 0.70`, High Risk exactly on `p ≥ 0.70`; in
particular the boundaries 0.30 and 0.70 fall in the upper band. -/
theorem get_risk_level_bands (p : ℚ) :
    (get_risk_level p = ("Low Risk", "🟢") ↔ p < 3/10) ∧
    (get_risk_level p = ("Moderate Risk", "🟡") ↔ 3/10 ≤ p ∧ p < 7/10) ∧
    (get_risk_level p = ("High Risk", "🔴") ↔ 7/10 ≤ p) ∧
    get_risk_level (3/10) = ("Moderate Risk", "🟡") ∧
    get_risk_level (7/10) = ("High Risk", "🔴") := by
  have b1 : get_risk_level (3/10) = ("Moderate Risk", "🟡") := by
    unfold get_risk_level
    rw [if_neg (by norm_num), if_pos (by norm_num)]
  have b2 : get_risk_level (7/10) = ("High Risk", "🔴") := by
    unfold get_risk_level
    rw [if_neg (by norm_num), if_neg (by norm_num)]
  by_cases h1 : p < 3/10
  · have e : get_risk_level p = ("Low Risk", "🟢") := by
      unfold get_risk_level
      rw [if_pos h1]
    refine ⟨?_, ?_, ?_, b1, b2⟩
    · simp [e, h1]
    · rw [e]
      constructor
      · intro h
        exact absurd h (by decide)
      · rintro ⟨hge, _⟩
        exact absurd h1 (not_lt.mpr hge)
    · rw [e]
      constructor
      · intro h
        exact absurd h (by decide)
      · intro hge
        exact absurd h1 (not_lt.mpr (by linarith))
  · by_cases h2 : p < 7/10
    · have e : get_risk_level p = ("Moderate Risk", "🟡") := by
        unfold get_risk_level
        rw [if_neg h1, if_pos h2]
      refine ⟨?_, ?_, ?_, b1, b2⟩
      · rw [e]
        constructor
        · intro h
          exact absurd h (by decide)
        · intro h
          exact absurd h h1
      · rw [e]
        constructor
        · intro _
          exact ⟨le_of_not_lt h1, h2⟩
        · intro _
          rfl
      · rw [e]
        constructor
        · intro h
          exact absurd h (by decide)
        · intro hge
          exact absurd h2 (not_lt.mpr hge)
    · have e : get_risk_level p = ("High Risk", "🔴") := by
        unfold get_risk_level
        rw [if_neg h1, if_neg h2]
      refine ⟨?_, ?_, ?_, b1, b2⟩
      · rw [e]
        constructor
        · intro h
          exact absurd h (by decide)
        · intro h
          exact absurd (show p < 7/10 by linarith) h2
      · rw [e]
        constructor
        · intro h
          exact absurd h (by decide)
        · rintro ⟨_, hlt⟩
          exact absurd hlt h2
      · rw [e]
        constructor
        · intro _
          exact le_of_not_lt h2
        · intro _
          rfl

/-- C3: the normal-range check returns true for any feature absent from the
table, and otherwise is true exactly when q25 ≤ value ≤ q75. -/
theorem check_normal_range_spec (f : String) (v : ℚ)
    (t : List (String × NormalRange)) :
    (t.lookup f = none → check_normal_range f v t = true) ∧
    (∀ r : NormalRange, t.lookup f = some r →
      (check_normal_range f v t = true ↔ r.q25 ≤ v ∧ v ≤ r.q75)) := by
  unfold check_normal_range
  constructor
  · intro h
    rw [h]
  · intro r h
    rw [h]
    simp

/-- Witness for C3 at the spec table: an absent feature is in range, and for
`radius_mean` the check is equivalent to the interval condition. -/
theorem check_normal_range_spec_witness :
    check_normal_range "texture_mean" 5 spec_table = true ∧
    (check_normal_range "radius_mean" 13 spec_table = true ↔
      (117/10 : ℚ) ≤ 13 ∧ (13 : ℚ) ≤ 1578/100) :=
  ⟨(check_normal_range_spec "texture_mean" 5 spec_table).1 rfl,
   (check_normal_range_spec "radius_mean" 13 spec_table).2
     { q25 := 117/10, q75 := 1578/100 } rfl⟩

/-- C10: `get_risk_level` always produces one of exactly three label-icon
pairs, for every rational input, and the icon is determined by the label. -/
theorem get_risk_level_range (p : ℚ) :
    (get_risk_level p = ("Low Risk", "🟢") ∨
      get_risk_level p = ("Moderate Risk", "🟡") ∨
      get_risk_level p = ("High Risk", "🔴")) ∧
    ((get_risk_level p).1 = "Low Risk" ↔ (get_risk_level p).2 = "🟢") ∧
    ((get_risk_level p).1 = "Moderate Risk" ↔ (get_risk_level p).2 = "🟡") ∧
    ((get_risk_level p).1 = "High Risk" ↔ (get_risk_level p).2 = "🔴") := by
  unfold get_risk_level
  split_ifs <;> refine ⟨by simp, ?_, ?_, ?_⟩ <;> simp

/-- C7: the two helpers are total functions: on any probability in [0,1]
the categorization yields one of the three fixed pairs, and on any feature,
value and table the range check yields a boolean. -/
theorem helpers_total (p : ℚ) (f : String) (v : ℚ)
    (t : List (String × NormalRange)) (_h0 : 0 ≤ p) (_h1 : p ≤ 1) :
    (get_risk_level p = ("Low Risk", "🟢") ∨
      get_risk_level p = ("Moderate Risk", "🟡") ∨
      get_risk_level p = ("High Risk", "🔴")) ∧
    (check_normal_range f v t = true ∨ check_normal_range f v t = false) := by
  constructor
  · unfold get_risk_level
    split_ifs <;> simp
  · cases check_normal_range f v t <;> simp

/-- Witness for C7 at p = 1/2 and a concrete range-check query. -/
theorem helpers_total_witness :
    (0 : ℚ) ≤ 1/2 ∧ (1/2 : ℚ) ≤ 1 ∧
    ((get_risk_level (1/2) = ("Low Risk", "🟢") ∨
      get_risk_level (1/2) = ("Moderate Risk", "🟡") ∨
      get_risk_level (1/2) = ("High Risk", "🔴")) ∧
    (check_normal_range "radius_mean" 13 spec_table = true ∨
      check_normal_range "radius_mean" 13 spec_table = false)) :=
  ⟨by norm_num, by norm_num,
   helpers_total (1/2) "radius_mean" 13 spec_table (by norm_num) (by norm_num)⟩

/-- An admissible artifact whose classifier echoes the rows it receives as
its probability matrix: used to observe that individual entries of the input
vector reach the classifier uncoerced. -/
def echo_artifact : Artifact where
  transform := fun rows => rows
  predict := fun rows => rows.map (fun _ => 0)
  predict_proba := fun rows => rows

/-- C4: whenever the pipeline produces a result, its probability is exactly
the entry at class index 1 of row 0 of the predict-proba output on the
scaled vector. -/
theorem score_probability_is_class_one (a : Artifact) (v : List ℚ)
    (r : ScoringResult) (h : score a v = some r) :
    ((a.predict_proba (a.transform [v])).get? 0).bind (fun row => row.get? 1) =
      some r.probability := by
  simp only [score] at h
  split at h
  · next hp hq =>
      injection h with h2
      subst h2
      exact hq
  · exact absurd h (by simp)

/-- Witness for C4: a concrete artifact and vector on which the pipeline
result carries the class-1 probability 0.7. -/
theorem score_probability_is_class_one_witness :
    ((witness_artifact.predict_proba
        (witness_artifact.transform [[(1 : ℚ), 2]])).get? 0).bind
      (fun row => row.get? 1) = some ((7 : ℚ)/10) :=
  score_probability_is_class_one witness_artifact [1, 2]
    { prediction := 1
      probability := 7/10
      risk_level := (get_risk_level (7/10)).1
      risk_icon := (get_risk_level (7/10)).2 } rfl

/-- C5: whenever the pipeline produces a result, the prediction is the
classifier applied to the scaler output of the raw vector, the probability
is taken from predict-proba of that same scaled vector, and the risk label
and icon are `get_risk_level` of that probability: scaling always precedes
inference. -/
theorem score_scales_then_predicts (a : Artifact) (v : List ℚ)
    (r : ScoringResult) (h : score a v = some r) :
    (a.predict (a.transform [v])).get? 0 = some r.prediction ∧
    ((a.predict_proba (a.transform [v])).get? 0).bind (fun row => row.get? 1) =
      some r.probability ∧
    r.risk_level = (get_risk_level r.probability).1 ∧
    r.risk_icon = (get_risk_level r.probability).2 := by
  simp only [score] at h
  split at h
  · next hp hq =>
      injection h with h2
      subst h2
      exact ⟨hp, hq, rfl, rfl⟩
  · exact absurd h (by simp)

/-- Witness for C5 at a concrete artifact and vector. -/
theorem score_scales_then_predicts_witness :
    (witness_artifact.predict (witness_artifact.transform [[(2 : ℚ), 3]])).get? 0 =
      some 1 ∧
    ((witness_artifact.predict_proba
        (witness_artifact.transform [[(2 : ℚ), 3]])).get? 0).bind
      (fun row => row.get? 1) = some ((7 : ℚ)/10) ∧
    (get_risk_level (7/10)).1 = (get_risk_level ((7 : ℚ)/10)).1 ∧
    (get_risk_level (7/10)).2 = (get_risk_level ((7 : ℚ)/10)).2 :=
  score_scales_then_predicts witness_artifact [2, 3]
    { prediction := 1
      probability := 7/10
      risk_level := (get_risk_level (7/10)).1
      risk_icon := (get_risk_level (7/10)).2 } rfl

/-- C6: scoring is deterministic: two invocations on equal vectors with the
same artifact yield the same optional result, and when both succeed the two
results agree on every field. -/
theorem score_deterministic (a : Artifact) (v₁ v₂ : List ℚ) (hv : v₁ = v₂) :
    score a v₁ = score a v₂ ∧
    ∀ r₁ r₂ : ScoringResult, score a v₁ = some r₁ → score a v₂ = some r₂ →
      r₁.prediction = r₂.prediction ∧ r₁.probability = r₂.probability ∧
      r₁.risk_level = r₂.risk_level ∧ r₁.risk_icon = r₂.risk_icon := by
  subst hv
  refine ⟨rfl, ?_⟩
  intro r₁ r₂ h₁ h₂
  rw [h₁] at h₂
  injection h₂ with h₃
  subst h₃
  exact ⟨rfl, rfl, rfl, rfl⟩

/-- Witness for C6 at a concrete artifact and vector. -/
theorem score_deterministic_witness :
    score half_artifact [(1 : ℚ), 2] = score half_artifact [(1 : ℚ), 2] :=
  (score_deterministic half_artifact [1, 2] [1, 2] rfl).1

/-- Counterexample for C2: a feature vector of length 19 is not rejected:
the pipeline hands it to the scaler and returns a well-formed result. -/
theorem length19_not_rejected :
    score half_artifact (List.replicate 19 0) ≠ none ∧
    score half_artifact (List.replicate 19 0) =
      some { prediction := 0
             probability := 1/2
             risk_level := (get_risk_level (1/2)).1
             risk_icon := (get_risk_level (1/2)).2 } := by
  have e : score half_artifact (List.replicate 19 0) =
      some { prediction := 0
             probability := 1/2
             risk_level := (get_risk_level (1/2)).1
             risk_icon := (get_risk_level (1/2)).2 } := rfl
  exact ⟨fun hn => Option.some_ne_none _ (e.symm.trans hn), e⟩

/-- C2 (amended): the pipeline performs no input validation at all: for
every vector, of any length, the single row handed to the scaler and
classifier has exactly the length of the input (nothing truncated, padded
or dropped), and its entries pass through uncoerced, as observed through
probe artifacts. -/
theorem score_passes_vector_unvalidated (v : List ℚ) :
    (score length_probe_artifact v).map (fun r => r.probability) =
      some ((v.length : ℚ)) ∧
    (score echo_artifact v).map (fun r => r.probability) = v.get? 1 := by
  constructor
  · rfl
  · cases h : v[1]? with
    | none => simp [score, echo_artifact, List.get?_eq_getElem?, h]
    | some q => simp [score, echo_artifact, List.get?_eq_getElem?, h]

/-- C8: the feature vector assembled by the form has exactly 20 entries:
the ten mean measurements in source order followed by the ten worst
measurements in the same order. -/
theorem input_data_layout (radius_mean texture_mean perimeter_mean area_mean
    smoothness_mean compactness_mean concavity_mean concave_points_mean
    symmetry_mean fractal_dimension_mean
    radius_worst texture_worst perimeter_worst area_worst
    smoothness_worst compactness_worst concavity_worst concave_points_worst
    symmetry_worst fractal_dimension_worst : ℚ) :
    (input_data radius_mean texture_mean perimeter_mean area_mean
      smoothness_mean compactness_mean concavity_mean concave_points_mean
      symmetry_mean fractal_dimension_mean
      radius_worst texture_worst perimeter_worst area_worst
      smoothness_worst compactness_worst concavity_worst concave_points_worst
      symmetry_worst fractal_dimension_worst).length = 20 ∧
    (input_data radius_mean texture_mean perimeter_mean area_mean
      smoothness_mean compactness_mean concavity_mean concave_points_mean
      symmetry_mean fractal_dimension_mean
      radius_worst texture_worst perimeter_worst area_worst
      smoothness_worst compactness_worst concavity_worst concave_points_worst
      symmetry_worst fractal_dimension_worst).take 10 =
      [radius_mean, texture_mean, perimeter_mean, area_mean, smoothness_mean,
       compactness_mean, concavity_mean, concave_points_mean, symmetry_mean,
       fractal_dimension_mean] ∧
    (input_data radius_mean texture_mean perimeter_mean area_mean
      smoothness_mean compactness_mean concavity_mean concave_points_mean
      symmetry_mean fractal_dimension_mean
      radius_worst texture_worst perimeter_worst area_worst
      smoothness_worst compactness_worst concavity_worst concave_points_worst
      symmetry_worst fractal_dimension_worst).drop 10 =
      [radius_worst, texture_worst, perimeter_worst, area_worst,
       smoothness_worst, compactness_worst, concavity_worst,
       concave_points_worst, symmetry_worst, fractal_dimension_worst] :=
  ⟨rfl, rfl, rfl⟩

/-- C9: on the moderate band 0.3 ≤ p < 0.7 the label is Moderate Risk, yet
the display branches only on p < 0.3, so the result renders in the
high-risk styled panel with the elevated-risk consultation message. -/
theorem moderate_rendered_in_high_panel (p : ℚ)
    (hge : 3/10 ≤ p) (hlt : p < 7/10) :
    get_risk_level p = ("Moderate Risk", "🟡") ∧
    (result_panel p).style = PanelStyle.riskHigh ∧
    (result_panel p).message =
      "The analysis suggests elevated risk. Please consult a healthcare professional." := by
  have hn : ¬ p < 3/10 := not_lt.mpr hge
  have e : get_risk_level p = ("Moderate Risk", "🟡") := by
    unfold get_risk_level
    rw [if_neg hn, if_pos hlt]
  refine ⟨e, ?_, ?_⟩ <;>
    · unfold result_panel
      rw [if_neg hn]

/-- Witness for C9 at p = 1/2. -/
theorem moderate_rendered_in_high_panel_witness :
    (3 : ℚ)/10 ≤ 1/2 ∧ (1/2 : ℚ) < 7/10 ∧
    (get_risk_level (1/2) = ("Moderate Risk", "🟡") ∧
    (result_panel (1/2)).style = PanelStyle.riskHigh ∧
    (result_panel (1/2)).message =
      "The analysis suggests elevated risk. Please consult a healthcare professional.") :=
  ⟨by norm_num, by norm_num,
   moderate_rendered_in_high_panel (1/2) (by norm_num) (by norm_num)⟩

end Cancer
